import Mathlib

/-!
Shallow embedding of `pyart/graph/radarmapdisplay.py` (class `RadarMapDisplay`).

Coordinates are modelled as real numbers.  The external collaborators — the
base `RadarDisplay` class's accessors (`_get_data`, `_get_x_y`,
`_parse_vmin_vmax`, `plot_colorbar`), the pyproj projection backend, numpy's
`masked_outside`, and the Basemap drawing backend — are abstract functions
collected in an `Env` record; the code of this module is embedded on top of
them, line by line.  Matplotlib drawing calls (`gca().plot`, `gca().text`,
`pcolormesh`) are modelled as emitted draw commands / returned artifact
handles; drawing never mutates the renderer's own state.  A Python call of
`self.basemap(...)` when `self.basemap is None` raises `TypeError`; operations
that can hit that are embedded with an `Option` result, `none` being the
raised error.
-/

/-- A 2-D masked data array, as returned by `self._get_data` (numpy masked
array).  Its contents are never inspected by this module, only passed on. -/
def RData : Type := List (List ℝ)

/-- One matplotlib drawing primitive emitted on the current axes. -/
inductive DrawCmd where
  | plot (xs ys : List ℝ) (style : String)
  | text (x y : ℝ) (s : String)

/-- Vectorized application of a pointwise coordinate transform to a pair of
equal-length coordinate arrays, returning the pair of result arrays.  This is
how both `self.proj(xs, ys, inverse=True)` and `self.basemap(lons, lats)`
behave on numpy arrays. -/
def applyArrays (f : ℝ → ℝ → ℝ × ℝ) (xs ys : List ℝ) : List ℝ × List ℝ :=
  ((List.zipWith f xs ys).map Prod.fst, (List.zipWith f xs ys).map Prod.snd)

/-- Keyword parameters of the `pyproj.Proj` constructor call in `__init__`. -/
structure ProjParams where
  proj : String
  datum : String
  lat_0 : ℝ
  lon_0 : ℝ
  x_0 : ℝ
  y_0 : ℝ

/-- Keyword parameters of the `Basemap` constructor call in `plot_ppi_map`
(the map extent corners, the resolution tier and the projection origin). -/
structure BasemapParams where
  llcrnrlon : ℝ
  llcrnrlat : ℝ
  urcrnrlon : ℝ
  urcrnrlat : ℝ
  resolution : String
  lat_0 : ℝ
  lon_0 : ℝ

/-- The map background constructed and drawn by `plot_ppi_map`: its
construction parameters, its (lon, lat) → pixel conversion (calling the
basemap object), and the graticule lines drawn on it by
`drawparallels` / `drawmeridians`. -/
structure Basemap where
  params : BasemapParams
  call : ℝ → ℝ → ℝ × ℝ
  parallels : List ℝ
  meridians : List ℝ

/-- The mutable state of a `RadarMapDisplay` object: the radar location
`self.loc` (latitude, longitude) and the projection `self.proj` fixed at
construction, the last plotted `self.basemap` (`None` before the first
`plot_ppi_map`), and the inherited artifact lists `self.plots`,
`self.plot_vars` and `self.cbs`. -/
structure DisplayState where
  loc : ℝ × ℝ
  proj : ℝ → ℝ → ℝ × ℝ
  basemap : Option Basemap
  plots : List ℕ
  plot_vars : List String
  cbs : List ℕ

/-- The external collaborators of `RadarMapDisplay`, abstract here: the base
class `RadarDisplay` accessors, the pyproj backend (only the
`inverse=True` direction, Cartesian meters → (lon, lat), is ever called in
this module), numpy masking, and the Basemap/matplotlib backend. -/
structure Env where
  parse_vmin_vmax : String → Option ℝ → Option ℝ → ℝ × ℝ
  get_data : String → ℕ → Option (String × ℝ) → RData
  get_x_y : String → ℕ → List ℝ × List ℝ
  masked_outside : RData → ℝ → ℝ → RData
  mkProj : ProjParams → ℝ → ℝ → ℝ × ℝ
  basemapBackend : BasemapParams → ℝ → ℝ → ℝ × ℝ
  pcolormesh : List ℝ → List ℝ → RData → ℝ → ℝ → String → ℕ
  plot_colorbar : ℕ → Option String → String → ℕ

/-- Constructor `RadarMapDisplay.__init__(radar, shift)`.  The base class
`RadarDisplay.__init__` (not part of this module) sets `self.loc` from the
radar and starts the artifact lists; modelled from the spec: `plots`,
`plot_vars` and the colorbar list start empty ("List of plots created" /
appended to on each draw call).  This module then sets `self.basemap = None`
and builds `self.proj` with `pyproj.Proj(proj='lcc', datum='NAD83',
lat_0=self.loc[0], lon_0=self.loc[1], x_0=0.0, y_0=0.0)`. -/
noncomputable def RadarMapDisplay_init (env : Env) (loc : ℝ × ℝ) : DisplayState :=
  { loc := loc
  , proj := env.mkProj
      { proj := "lcc", datum := "NAD83"
      , lat_0 := loc.1, lon_0 := loc.2, x_0 := 0.0, y_0 := 0.0 }
  , basemap := none
  , plots := []
  , plot_vars := []
  , cbs := [] }

/-- Method `plot_point(lon, lat, symbol, label_text, label_offset)`: converts
(lon, lat) through `self.basemap` to pixel coordinates, draws a single marker
with `gca().plot([xp,xp], [yp,yp], symbol)`, and when `label_text` is not
`None` computes `label_lonlat` from `label_offset` and then draws the text at
`self.basemap(lon, lat)`.  `self.basemap` is `None` before any
`plot_ppi_map`: the call then raises (result `none`). -/
def plot_point (st : DisplayState) (lon lat : ℝ) (symbol : String)
    (label_text : Option String) (label_offset : ℝ × ℝ) :
    Option (DisplayState × List DrawCmd) :=
  match st.basemap with
  | none => none
  | some bm =>
      let xp := (bm.call lon lat).1
      let yp := (bm.call lon lat).2
      let marker := DrawCmd.plot [xp, xp] [yp, yp] symbol
      match label_text with
      | none => some (st, [marker])
      | some txt =>
          let label_lonlat := (lon + label_offset.1, lat + label_offset.2)
          let xl := (bm.call lon lat).1
          let yl := (bm.call lon lat).2
          some (st, [marker, DrawCmd.text xl yl txt])

/-- Method `plot_line_geo(line_lons, line_lats, line_style)`: converts the
vertex arrays through `self.basemap` and draws one connected polyline with
`gca().plot(xp, yp, line_style)`.  Raises (`none`) when `self.basemap` is
still `None`. -/
def plot_line_geo (st : DisplayState) (line_lons line_lats : List ℝ)
    (line_style : String) : Option (DisplayState × List DrawCmd) :=
  match st.basemap with
  | none => none
  | some bm =>
      let p := applyArrays bm.call line_lons line_lats
      some (st, [DrawCmd.plot p.1 p.2 line_style])

/-- The coordinate conversion performed by `plot_line_xy`:
`lons, lats = self.proj(line_x, line_y, inverse=True)` — the input arrays are
passed to the projection unscaled (meters). -/
def line_xy_lonlat (st : DisplayState) (line_x line_y : List ℝ) :
    List ℝ × List ℝ :=
  applyArrays st.proj line_x line_y

/-- Method `plot_line_xy(line_x, line_y, line_style)`: converts the
radar-centered Cartesian arrays to geographic coordinates with
`self.proj(line_x, line_y, inverse=True)` and delegates to
`plot_line_geo`. -/
def plot_line_xy (st : DisplayState) (line_x line_y : List ℝ)
    (line_style : String) : Option (DisplayState × List DrawCmd) :=
  plot_line_geo st (line_xy_lonlat st line_x line_y).1
    (line_xy_lonlat st line_x line_y).2 line_style

/-- numpy `np.linspace(start, stop, num)` with the default
`endpoint=True`: `num` samples `start + (stop - start) * i / (num - 1)` for
`i = 0, …, num - 1` (both endpoints included). -/
noncomputable def linspace (start stop : ℝ) (num : ℕ) : List ℝ :=
  (List.range num).map (fun (i : ℕ) => start + (stop - start) * (i : ℝ) / ((num : ℝ) - 1))

/-- The angle samples built in `plot_range_ring`:
`npts = 360; angle = np.linspace(0., 2.0 * np.pi, npts)`. -/
noncomputable def rangeRingAngles : List ℝ :=
  linspace 0 (2.0 * Real.pi) 360

/-- The x-coordinates generated by `plot_range_ring`:
`xpts = radar_range * np.sin(angle)`. -/
noncomputable def rangeRingXpts (radar_range : ℝ) : List ℝ :=
  rangeRingAngles.map (fun a => radar_range * Real.sin a)

/-- The y-coordinates generated by `plot_range_ring`:
`ypts = radar_range * np.cos(angle)`. -/
noncomputable def rangeRingYpts (radar_range : ℝ) : List ℝ :=
  rangeRingAngles.map (fun a => radar_range * Real.cos a)

/-- The Cartesian points generated by `plot_range_ring`, paired up. -/
noncomputable def rangeRingPoints (radar_range : ℝ) : List (ℝ × ℝ) :=
  (rangeRingXpts radar_range).zip (rangeRingYpts radar_range)

/-- Method `plot_range_ring(radar_range, line_style)`: generates the circle
sample arrays and delegates to `plot_line_xy`. -/
noncomputable def plot_range_ring (st : DisplayState) (radar_range : ℝ)
    (line_style : String) : Option (DisplayState × List DrawCmd) :=
  plot_line_xy st (rangeRingXpts radar_range) (rangeRingYpts radar_range)
    line_style

/-- numpy `np.arange(lo, hi, 1)` for integer endpoints: the integers
`lo, lo + 1, …` up to but excluding `hi`. -/
def arange (lo hi : ℤ) : List ℤ :=
  (List.range (hi - lo).toNat).map (fun k => lo + k)

/-- numpy `arr.min()`: the minimum of the array's entries; numpy raises on an
empty array (`none`). -/
def npMin : List ℝ → Option ℝ
  | [] => none
  | x :: xs => some (xs.foldl min x)

/-- numpy `arr.max()`: the maximum of the array's entries; numpy raises on an
empty array (`none`). -/
def npMax : List ℝ → Option ℝ
  | [] => none
  | x :: xs => some (xs.foldl max x)

/-- The keyword parameters of `plot_ppi_map`, with their default values from
the source signature. -/
structure PpiArgs where
  field : String
  sweep : ℕ := 0
  mask_tuple : Option (String × ℝ) := none
  vmin : Option ℝ := none
  vmax : Option ℝ := none
  cmap : String := "jet"
  mask_outside : Bool := true
  title : Option String := none
  title_flag : Bool := true
  colorbar_flag : Bool := true
  colorbar_label : Option String := none
  lat_lines : Option (List ℝ) := none
  lon_lines : Option (List ℝ) := none
  auto_range : Bool := true
  min_lon : ℝ := -92
  max_lon : ℝ := -86
  min_lat : ℝ := 40
  max_lat : ℝ := 44
  resolution : String := "h"
  shapefile : Option String := none

/-- Latitude graticule positions used by `plot_ppi_map`:
`if lat_lines is None: lat_lines = np.arange(30, 46, 1)`. -/
def ppiLatLines (a : PpiArgs) : List ℝ :=
  a.lat_lines.getD ((arange 30 46).map (fun z => (z : ℝ)))

/-- Longitude graticule positions used by `plot_ppi_map`:
`if lon_lines is None: lon_lines = np.arange(-110, -75, 1)`. -/
def ppiLonLines (a : PpiArgs) : List ℝ :=
  a.lon_lines.getD ((arange (-110) (-75)).map (fun z => (z : ℝ)))

/-- The resolved luminance limits of `plot_ppi_map`:
`vmin, vmax = self._parse_vmin_vmax(field, vmin, vmax)`. -/
def ppiVminVmax (env : Env) (a : PpiArgs) : ℝ × ℝ :=
  env.parse_vmin_vmax a.field a.vmin a.vmax

/-- The data array plotted by `plot_ppi_map`:
`data = self._get_data(field, sweep, mask_tuple)`, then
`if mask_outside: data = np.ma.masked_outside(data, vmin, vmax)`. -/
def ppiData (env : Env) (a : PpiArgs) : RData :=
  let data := env.get_data a.field a.sweep a.mask_tuple
  if a.mask_outside then
    env.masked_outside data (ppiVminVmax env a).1 (ppiVminVmax env a).2
  else data

/-- The geographic coordinates of the sweep computed by `plot_ppi_map`:
`x, y = self._get_x_y(field, sweep)` followed by
`lon, lat = self.proj(x * 1000.0, y * 1000.0, inverse=True)` — the sweep
coordinates are scaled by 1000 (kilometers → meters) before projection. -/
def ppiLonLat (env : Env) (st : DisplayState) (a : PpiArgs) :
    List ℝ × List ℝ :=
  let xy := env.get_x_y a.field a.sweep
  applyArrays st.proj (xy.1.map (fun v => v * 1000.0))
    (xy.2.map (fun v => v * 1000.0))

/-- A map extent: the four bounds handed to the `Basemap` constructor. -/
structure Extent where
  min_lon : ℝ
  max_lon : ℝ
  min_lat : ℝ
  max_lat : ℝ

/-- The map region determined by `plot_ppi_map`: when `auto_range` the
min/max of the projected sweep's lon/lat arrays (numpy raises on an empty
sweep: `none`), otherwise the `min_lon`/`max_lon`/`min_lat`/`max_lat`
arguments verbatim. -/
def ppiExtent (env : Env) (st : DisplayState) (a : PpiArgs) : Option Extent :=
  if a.auto_range then
    match npMin (ppiLonLat env st a).1, npMax (ppiLonLat env st a).1,
        npMin (ppiLonLat env st a).2, npMax (ppiLonLat env st a).2 with
    | some mnlon, some mxlon, some mnlat, some mxlat =>
        some { min_lon := mnlon, max_lon := mxlon
             , min_lat := mnlat, max_lat := mxlat }
    | _, _, _, _ => none
  else
    some { min_lon := a.min_lon, max_lon := a.max_lon
         , min_lat := a.min_lat, max_lat := a.max_lat }

/-- The map background constructed by `plot_ppi_map`: a `Basemap` with the
lower-left/upper-right corners from the extent, the requested resolution, the
projection origin at the radar location, and the graticule drawn by
`drawparallels(lat_lines)` / `drawmeridians(lon_lines)`. -/
def ppiBasemap (env : Env) (st : DisplayState) (a : PpiArgs) : Option Basemap :=
  (ppiExtent env st a).map (fun e =>
    let params : BasemapParams :=
      { llcrnrlon := e.min_lon, llcrnrlat := e.min_lat
      , urcrnrlon := e.max_lon, urcrnrlat := e.max_lat
      , resolution := a.resolution
      , lat_0 := st.loc.1, lon_0 := st.loc.2 }
    { params := params
    , call := env.basemapBackend params
    , parallels := ppiLatLines a
    , meridians := ppiLonLines a })

/-- Method `plot_ppi_map(field, sweep, …)`: resolves the scale and data,
projects the sweep (`ppiLonLat`), determines the region (`ppiExtent`),
constructs and draws the new basemap (`ppiBasemap`), draws the pseudocolor
mesh `pm = basemap.pcolormesh(xd, yd, data, vmin, vmax, cmap)` on the
pixel-converted coordinates, then stores the basemap in `self.basemap`,
appends `pm` to `self.plots` and `field` to `self.plot_vars`, and when
`colorbar_flag` attaches a colorbar for `pm` (appended by the base class to
`self.cbs`).  The title and the optional shapefile overlay are drawing-only
side effects on the axes and touch no renderer state.  Returns the new state
and the mesh handle. -/
def plot_ppi_map (env : Env) (st : DisplayState) (a : PpiArgs) :
    Option (DisplayState × ℕ) :=
  match ppiBasemap env st a with
  | none => none
  | some bm =>
      let lonlat := ppiLonLat env st a
      let pix := applyArrays bm.call lonlat.1 lonlat.2
      let pm := env.pcolormesh pix.1 pix.2 (ppiData env a)
        (ppiVminVmax env a).1 (ppiVminVmax env a).2 a.cmap
      some ({ st with
                basemap := some bm
              , plots := st.plots ++ [pm]
              , plot_vars := st.plot_vars ++ [a.field]
              , cbs := if a.colorbar_flag then
                         st.cbs ++ [env.plot_colorbar pm a.colorbar_label a.field]
                       else st.cbs }, pm)

/-- Concrete argument bundle exercising the graticule defaults: only the
field is given, every optional parameter keeps its source default. -/
def aDefaults : PpiArgs := { field := "reflectivity" }

/-- Concrete argument bundle with explicitly supplied graticule lines. -/
noncomputable def aExplicitLines : PpiArgs :=
  { field := "reflectivity"
  , lat_lines := some [35.5, 36.5]
  , lon_lines := some [-98.25] }

/-- A concrete collaborator environment for instantiating the theorems: the
accessors return a fixed two-point sweep, the projection and basemap
backends are the identity transform, and the mesh/colorbar handles are
fixed. -/
noncomputable def envW : Env :=
  { parse_vmin_vmax := fun _ v w => (v.getD 0, w.getD 1)
  , get_data := fun _ _ _ => ([] : List (List ℝ))
  , get_x_y := fun _ _ => (([1, 3] : List ℝ), ([2, 5] : List ℝ))
  , masked_outside := fun d _ _ => d
  , mkProj := fun _ x y => (x, y)
  , basemapBackend := fun _ x y => (x, y)
  , pcolormesh := fun _ _ _ _ _ _ => 7
  , plot_colorbar := fun _ _ _ => 3 }

/-- A concrete renderer state: radar at (36°N, 97°W), identity projection,
no basemap plotted yet, empty artifact lists. -/
noncomputable def stW : DisplayState :=
  { loc := ((36 : ℝ), (-97 : ℝ))
  , proj := fun x y => (x, y)
  , basemap := none
  , plots := []
  , plot_vars := []
  , cbs := [] }

/-- The auto-range extent that `plot_ppi_map` computes for `envW`/`stW`: the
componentwise min/max of the projected two-point sweep. -/
noncomputable def eW : Extent :=
  { min_lon := min ((1 : ℝ) * 1000.0) (3 * 1000.0)
  , max_lon := max ((1 : ℝ) * 1000.0) (3 * 1000.0)
  , min_lat := min ((2 : ℝ) * 1000.0) (5 * 1000.0)
  , max_lat := max ((2 : ℝ) * 1000.0) (5 * 1000.0) }

/-- Concrete argument bundle with `auto_range` disabled, keeping the explicit
source-default bounds. -/
def aFixed : PpiArgs := { field := "reflectivity", auto_range := false }

/-- The basemap parameters `plot_ppi_map` builds for `envW`/`stW` under
auto-range. -/
noncomputable def paramsW : BasemapParams :=
  { llcrnrlon := eW.min_lon, llcrnrlat := eW.min_lat
  , urcrnrlon := eW.max_lon, urcrnrlat := eW.max_lat
  , resolution := "h", lat_0 := (36 : ℝ), lon_0 := (-97 : ℝ) }

/-- The basemap `plot_ppi_map` builds for `envW`/`stW` under auto-range. -/
noncomputable def bmW : Basemap :=
  { params := paramsW
  , call := envW.basemapBackend paramsW
  , parallels := ppiLatLines aDefaults
  , meridians := ppiLonLines aDefaults }

/-- The renderer state after one `plot_ppi_map(envW, stW, aDefaults)` call:
the constructed basemap is stored and one mesh handle, field name and
colorbar handle have been appended. -/
noncomputable def st1W : DisplayState :=
  { loc := ((36 : ℝ), (-97 : ℝ))
  , proj := fun x y => (x, y)
  , basemap := some bmW
  , plots := [7]
  , plot_vars := ["reflectivity"]
  , cbs := [3] }

/-- The renderer state after a second identical `plot_ppi_map` call. -/
noncomputable def st2W : DisplayState :=
  { loc := ((36 : ℝ), (-97 : ℝ))
  , proj := fun x y => (x, y)
  , basemap := some bmW
  , plots := [7, 7]
  , plot_vars := ["reflectivity", "reflectivity"]
  , cbs := [3, 3] }

/-- C1: for any coordinate arrays (in particular of equal length ≥ 2) and any
style, `plot_line_xy(xs, ys, style)` is exactly `plot_line_geo(lons, lats,
style)` where (lons, lats) is the projection of (xs, ys) from radar-centered
Cartesian to geographic coordinates; `plot_line_xy` does nothing besides this
conversion and the delegation — state effect and drawn polyline agree. -/
theorem plot_line_xy_refines_plot_line_geo (st : DisplayState)
    (xs ys : List ℝ) (style : String) :
    plot_line_xy st xs ys style
      = plot_line_geo st (applyArrays st.proj xs ys).1
          (applyArrays st.proj xs ys).2 style := rfl

/-- C5: on a freshly constructed `RadarMapDisplay`, before any
`plot_ppi_map`, the stored basemap is `None`, and both `plot_point` and
`plot_line_geo` invoke it as the lon/lat converter and hence fail
(`none`) rather than silently succeeding. -/
theorem overlay_before_any_ppi_fails (env : Env) (loc : ℝ × ℝ)
    (lon lat : ℝ) (symbol : String) (label_text : Option String)
    (label_offset : ℝ × ℝ) (lons lats : List ℝ) (style : String) :
    (RadarMapDisplay_init env loc).basemap = none ∧
    plot_point (RadarMapDisplay_init env loc) lon lat symbol label_text
      label_offset = none ∧
    plot_line_geo (RadarMapDisplay_init env loc) lons lats style = none :=
  ⟨rfl, rfl, rfl⟩

/-- C6: `plot_ppi_map` projects the sweep coordinates scaled by 1000
(kilometers → meters), while `plot_line_xy` projects its input arrays
unscaled (meters): the geographic coordinates `plot_ppi_map` computes are
exactly what the `plot_line_xy` conversion produces on the 1000-scaled
sweep coordinates, and the `plot_line_xy` conversion is the bare projection
of its inputs. -/
theorem ppi_map_scales_km_line_xy_uses_m (env : Env) (st : DisplayState)
    (a : PpiArgs) :
    ppiLonLat env st a
      = line_xy_lonlat st
          ((env.get_x_y a.field a.sweep).1.map (fun v => v * 1000.0))
          ((env.get_x_y a.field a.sweep).2.map (fun v => v * 1000.0)) ∧
    (∀ xs ys : List ℝ, line_xy_lonlat st xs ys = applyArrays st.proj xs ys) :=
  ⟨rfl, fun _ _ => rfl⟩

/-- C7: when `plot_point` is called with a label, the offset position is
computed but never used: the output is the same for any two label offsets,
and the text is drawn at the pixel position of the unoffset (lon, lat). -/
theorem plot_point_label_offset_unused (st : DisplayState) (lon lat : ℝ)
    (symbol txt : String) (off off' : ℝ × ℝ) :
    plot_point st lon lat symbol (some txt) off
      = plot_point st lon lat symbol (some txt) off' ∧
    (plot_point st lon lat symbol (some txt) off).map (fun r => r.2)
      = st.basemap.map (fun bm =>
          [DrawCmd.plot [(bm.call lon lat).1, (bm.call lon lat).1]
              [(bm.call lon lat).2, (bm.call lon lat).2] symbol,
           DrawCmd.text (bm.call lon lat).1 (bm.call lon lat).2 txt]) := by
  obtain ⟨l, p, bm, pl, pv, cb⟩ := st
  cases bm <;> exact ⟨rfl, rfl⟩

/-- C10: every overlay operation (`plot_point`, `plot_line_geo`,
`plot_line_xy`, `plot_range_ring`) leaves the renderer state — basemap,
projection, and the artifact lists — exactly as it was: whenever such a call
succeeds, the state it returns is the state it was given. -/
theorem overlays_preserve_state (st : DisplayState) (lon lat : ℝ)
    (symbol : String) (label_text : Option String) (off : ℝ × ℝ)
    (lons lats xs ys : List ℝ) (style : String) (r : ℝ) :
    (plot_point st lon lat symbol label_text off).map (fun p => p.1)
      = (plot_point st lon lat symbol label_text off).map (fun _ => st) ∧
    (plot_line_geo st lons lats style).map (fun p => p.1)
      = (plot_line_geo st lons lats style).map (fun _ => st) ∧
    (plot_line_xy st xs ys style).map (fun p => p.1)
      = (plot_line_xy st xs ys style).map (fun _ => st) ∧
    (plot_range_ring st r style).map (fun p => p.1)
      = (plot_range_ring st r style).map (fun _ => st) := by
  unfold plot_range_ring plot_line_xy plot_point plot_line_geo
  cases st.basemap <;> cases label_text <;> exact ⟨rfl, rfl, rfl, rfl⟩

/-- C9: when `lat_lines` is unset the latitude graticule defaults to the
integer degrees 30, 31, …, 45 (1° spacing from 30°N up to 46°N, the numpy
`arange` upper bound being exclusive), when `lon_lines` is unset the
longitude graticule defaults to the integer degrees −110, −109, …, −76, and
explicitly supplied arrays are used verbatim instead of the defaults. -/
theorem ppi_graticule_defaults (a : PpiArgs) :
    (a.lat_lines = none →
      ppiLatLines a = ([30, 31, 32, 33, 34, 35, 36, 37, 38, 39, 40, 41, 42,
        43, 44, 45] : List ℤ).map (fun z => (z : ℝ))) ∧
    (a.lon_lines = none →
      ppiLonLines a = ([-110, -109, -108, -107, -106, -105, -104, -103, -102,
        -101, -100, -99, -98, -97, -96, -95, -94, -93, -92, -91, -90, -89,
        -88, -87, -86, -85, -84, -83, -82, -81, -80, -79, -78, -77,
        -76] : List ℤ).map (fun z => (z : ℝ))) ∧
    (∀ ls, a.lat_lines = some ls → ppiLatLines a = ls) ∧
    (∀ ls, a.lon_lines = some ls → ppiLonLines a = ls) := by
  refine ⟨fun h => ?_, fun h => ?_, fun ls h => ?_, fun ls h => ?_⟩ <;>
    simp only [ppiLatLines, ppiLonLines, h, Option.getD_none, Option.getD_some]
  · have : arange 30 46 = [30, 31, 32, 33, 34, 35, 36, 37, 38, 39, 40, 41,
      42, 43, 44, 45] := by decide
    rw [this]
  · have : arange (-110) (-75) = [-110, -109, -108, -107, -106, -105, -104,
      -103, -102, -101, -100, -99, -98, -97, -96, -95, -94, -93, -92, -91,
      -90, -89, -88, -87, -86, -85, -84, -83, -82, -81, -80, -79, -78, -77,
      -76] := by decide
    rw [this]

/-- Witness for C9 at concrete inputs: the default bundle gets the fixed
integer-degree graticule, the explicit bundle gets its own arrays. -/
theorem ppi_graticule_defaults_witness :
    ppiLatLines aDefaults = ([30, 31, 32, 33, 34, 35, 36, 37, 38, 39, 40, 41,
      42, 43, 44, 45] : List ℤ).map (fun z => (z : ℝ)) ∧
    ppiLonLines aDefaults = ([-110, -109, -108, -107, -106, -105, -104, -103,
      -102, -101, -100, -99, -98, -97, -96, -95, -94, -93, -92, -91, -90,
      -89, -88, -87, -86, -85, -84, -83, -82, -81, -80, -79, -78, -77,
      -76] : List ℤ).map (fun z => (z : ℝ)) ∧
    ppiLatLines aExplicitLines = [35.5, 36.5] ∧
    ppiLonLines aExplicitLines = [-98.25] :=
  ⟨(ppi_graticule_defaults aDefaults).1 rfl,
   (ppi_graticule_defaults aDefaults).2.1 rfl,
   (ppi_graticule_defaults aExplicitLines).2.2.1 [35.5, 36.5] rfl,
   (ppi_graticule_defaults aExplicitLines).2.2.2 [-98.25] rfl⟩

/-- The angle samples of `plot_range_ring` in closed form: 360 samples
`2π·k/359` for `k = 0, …, 359` (numpy `linspace` includes the endpoint). -/
theorem rangeRingAngles_eq :
    rangeRingAngles
      = (List.range 360).map (fun (k : ℕ) => 2 * Real.pi * (k : ℝ) / 359) := by
  unfold rangeRingAngles linspace
  refine List.map_congr_left (fun i _ => ?_)
  push_cast
  norm_num

/-- The range-ring angle list decomposed at its last sample. -/
theorem range_360_concat : List.range 360 = List.range 359 ++ [359] := by
  have h : (360 : ℕ) = 359 + 1 := rfl
  rw [h, List.range_succ]

/-- The first angle sampled by `plot_range_ring` is 0. -/
theorem rangeRingAngles_head : rangeRingAngles.head? = some 0 := by
  rw [rangeRingAngles_eq, List.head?_map]
  have h : (360 : ℕ) = 359 + 1 := rfl
  rw [h, List.range_succ_eq_map]
  simp

/-- The last angle sampled by `plot_range_ring` is exactly 2π. -/
theorem rangeRingAngles_getLast : rangeRingAngles.getLast? = some (2 * Real.pi) := by
  rw [rangeRingAngles_eq, List.getLast?_map, range_360_concat]
  rw [List.getLast?_concat]
  simp only [Option.map_some']
  congr 1
  push_cast
  norm_num

/-- C2: for every radius r, `plot_range_ring(r)` generates exactly 360
Cartesian points (the entries of `xpts` and `ypts`), each point
(r·sin a, r·cos a) lies at Euclidean distance |r| from the origin, and the
first and the last generated point coincide (angles 0 and 2π). -/
theorem plot_range_ring_points_spec (r : ℝ) :
    (rangeRingXpts r).length = 360 ∧
    (rangeRingYpts r).length = 360 ∧
    (rangeRingPoints r).map (fun p => Real.sqrt (p.1 ^ 2 + p.2 ^ 2))
      = List.replicate 360 |r| ∧
    (rangeRingPoints r).head? = (rangeRingPoints r).getLast? := by
  have hpts : rangeRingPoints r
      = rangeRingAngles.map (fun a => (r * Real.sin a, r * Real.cos a)) :=
    List.zip_map' _ _ _
  have hlen : rangeRingAngles.length = 360 := by
    simp [rangeRingAngles, linspace]
  refine ⟨by simp [rangeRingXpts, hlen], by simp [rangeRingYpts, hlen],
    ?_, ?_⟩
  · rw [hpts, List.map_map]
    refine List.eq_replicate_iff.2 ⟨by simp [hlen], fun b hb => ?_⟩
    obtain ⟨a, -, rfl⟩ := List.mem_map.1 hb
    show Real.sqrt ((r * Real.sin a) ^ 2 + (r * Real.cos a) ^ 2) = |r|
    have hd : (r * Real.sin a) ^ 2 + (r * Real.cos a) ^ 2 = r ^ 2 := by
      rw [mul_pow, mul_pow, ← mul_add, Real.sin_sq_add_cos_sq, mul_one]
    rw [hd, Real.sqrt_sq_eq_abs]
  · rw [hpts, List.head?_map, List.getLast?_map, rangeRingAngles_head,
      rangeRingAngles_getLast]
    simp [Real.sin_two_pi, Real.cos_two_pi]

/-- C8 counterexample: the sampling of `plot_range_ring` is not 360 angles
starting at 0 with step 2π/360 spanning the half-open interval [0, 2π) —
in the code the endpoint 2π itself is the 360th sample (numpy `linspace`
includes the endpoint, so the step is 2π/359). -/
theorem rangeRing_sampling_not_step_360 :
    rangeRingAngles
        ≠ (List.range 360).map (fun (k : ℕ) => 2 * Real.pi * (k : ℝ) / 360) ∧
    2 * Real.pi ∈ rangeRingAngles := by
  constructor
  · intro h
    have hlast := congrArg List.getLast? h
    rw [rangeRingAngles_getLast, List.getLast?_map, range_360_concat,
      List.getLast?_concat, Option.map_some'] at hlast
    have h2 : 2 * Real.pi = 2 * Real.pi * ((359 : ℕ) : ℝ) / 360 :=
      Option.some.inj hlast
    push_cast at h2
    nlinarith [Real.pi_pos]
  · rw [rangeRingAngles_eq]
    refine List.mem_map.2 ⟨359, List.mem_range.2 (by norm_num), ?_⟩
    push_cast
    norm_num

/-- C8 amended: `plot_range_ring` samples the circle at 360 uniformly spaced
angles starting at angle 0 with an angle step of 2π/359, so that the sampled
angles span exactly the closed interval [0, 2π]: the first sample is 0 and
the endpoint 2π is itself the last sample. -/
theorem rangeRing_sampling_uniform_closed :
    rangeRingAngles
        = (List.range 360).map (fun (k : ℕ) => 2 * Real.pi * (k : ℝ) / 359) ∧
    rangeRingAngles.head? = some 0 ∧
    rangeRingAngles.getLast? = some (2 * Real.pi) :=
  ⟨rangeRingAngles_eq, rangeRingAngles_head, rangeRingAngles_getLast⟩

/-- A left fold of `min` over a list lands on one of the folded values. -/
theorem foldl_min_mem (xs : List ℝ) (x : ℝ) : xs.foldl min x ∈ x :: xs := by
  induction xs generalizing x with
  | nil => simp
  | cons y ys ih =>
      simp only [List.foldl_cons]
      rcases List.mem_cons.1 (ih (min x y)) with h1 | h1
      · rcases min_choice x y with hm | hm <;> rw [h1, hm]
        · exact List.mem_cons_self _ _
        · exact List.mem_cons.2 (Or.inr (List.mem_cons_self _ _))
      · exact List.mem_cons.2 (Or.inr (List.mem_cons.2 (Or.inr h1)))

/-- A left fold of `min` over a list bounds every folded value from below. -/
theorem foldl_min_le (xs : List ℝ) (x : ℝ) :
    ∀ z ∈ x :: xs, xs.foldl min x ≤ z := by
  induction xs generalizing x with
  | nil => intro z hz; rw [List.mem_singleton.1 hz]; simp
  | cons y ys ih =>
      intro z hz
      simp only [List.foldl_cons]
      have hhead := ih (min x y) (min x y) (List.mem_cons_self _ _)
      rcases List.mem_cons.1 hz with rfl | hz1
      · exact hhead.trans (min_le_left _ _)
      · rcases List.mem_cons.1 hz1 with rfl | hz2
        · exact hhead.trans (min_le_right _ _)
        · exact ih (min x y) z (List.mem_cons.2 (Or.inr hz2))

/-- A left fold of `max` over a list lands on one of the folded values. -/
theorem foldl_max_mem (xs : List ℝ) (x : ℝ) : xs.foldl max x ∈ x :: xs := by
  induction xs generalizing x with
  | nil => simp
  | cons y ys ih =>
      simp only [List.foldl_cons]
      rcases List.mem_cons.1 (ih (max x y)) with h1 | h1
      · rcases max_choice x y with hm | hm <;> rw [h1, hm]
        · exact List.mem_cons_self _ _
        · exact List.mem_cons.2 (Or.inr (List.mem_cons_self _ _))
      · exact List.mem_cons.2 (Or.inr (List.mem_cons.2 (Or.inr h1)))

/-- A left fold of `max` over a list bounds every folded value from above. -/
theorem le_foldl_max (xs : List ℝ) (x : ℝ) :
    ∀ z ∈ x :: xs, z ≤ xs.foldl max x := by
  induction xs generalizing x with
  | nil => intro z hz; rw [List.mem_singleton.1 hz]; simp
  | cons y ys ih =>
      intro z hz
      simp only [List.foldl_cons]
      have hhead := ih (max x y) (max x y) (List.mem_cons_self _ _)
      rcases List.mem_cons.1 hz with rfl | hz1
      · exact (le_max_left _ _).trans hhead
      · rcases List.mem_cons.1 hz1 with rfl | hz2
        · exact (le_max_right _ _).trans hhead
        · exact ih (max x y) z (List.mem_cons.2 (Or.inr hz2))

/-- C3: when `auto_range` is set, the extent handed to the basemap is exactly
the componentwise minimum and maximum of the projected sweep's longitude and
latitude arrays (each bound is attained by an array entry and bounds every
entry); when `auto_range` is unset, the supplied `min_lon`, `max_lon`,
`min_lat`, `max_lat` are used verbatim; and the basemap constructed by
`plot_ppi_map` carries exactly that extent as its corner parameters. -/
theorem plot_ppi_map_extent_spec (env : Env) (st : DisplayState) (a : PpiArgs) :
    (a.auto_range = true →
      ∀ e, ppiExtent env st a = some e →
        (e.min_lon ∈ (ppiLonLat env st a).1 ∧
          ∀ z ∈ (ppiLonLat env st a).1, e.min_lon ≤ z) ∧
        (e.max_lon ∈ (ppiLonLat env st a).1 ∧
          ∀ z ∈ (ppiLonLat env st a).1, z ≤ e.max_lon) ∧
        (e.min_lat ∈ (ppiLonLat env st a).2 ∧
          ∀ z ∈ (ppiLonLat env st a).2, e.min_lat ≤ z) ∧
        (e.max_lat ∈ (ppiLonLat env st a).2 ∧
          ∀ z ∈ (ppiLonLat env st a).2, z ≤ e.max_lat)) ∧
    (a.auto_range = false →
      ppiExtent env st a = some { min_lon := a.min_lon, max_lon := a.max_lon
                                , min_lat := a.min_lat, max_lat := a.max_lat }) ∧
    (∀ bm, ppiBasemap env st a = some bm →
      ∃ e, ppiExtent env st a = some e ∧
        bm.params.llcrnrlon = e.min_lon ∧ bm.params.urcrnrlon = e.max_lon ∧
        bm.params.llcrnrlat = e.min_lat ∧ bm.params.urcrnrlat = e.max_lat) := by
  refine ⟨fun hauto e he => ?_, fun hfixed => ?_, fun bm hbm => ?_⟩
  · rw [ppiExtent, hauto, if_pos rfl] at he
    cases hlon : (ppiLonLat env st a).1 with
    | nil => rw [hlon] at he; simp [npMin] at he
    | cons x xs =>
        cases hlat : (ppiLonLat env st a).2 with
        | nil => rw [hlon, hlat] at he; simp [npMin, npMax] at he
        | cons y ys =>
            rw [hlon, hlat] at he
            simp only [npMin, npMax, Option.some.injEq] at he
            subst he
            exact ⟨⟨hlon ▸ foldl_min_mem xs x, hlon ▸ foldl_min_le xs x⟩,
              ⟨hlon ▸ foldl_max_mem xs x, hlon ▸ le_foldl_max xs x⟩,
              ⟨hlat ▸ foldl_min_mem ys y, hlat ▸ foldl_min_le ys y⟩,
              ⟨hlat ▸ foldl_max_mem ys y, hlat ▸ le_foldl_max ys y⟩⟩
  · rw [ppiExtent, hfixed]
    simp
  · rw [ppiBasemap] at hbm
    cases hx : ppiExtent env st a with
    | none => rw [hx] at hbm; simp at hbm
    | some e =>
        rw [hx, Option.map_some'] at hbm
        obtain rfl := Option.some.inj hbm
        exact ⟨e, rfl, rfl, rfl, rfl, rfl⟩

/-- Witness for C3 at concrete inputs: under auto-range the computed extent
is the componentwise min/max of the projected sweep, with auto-range off the
explicit bounds pass through verbatim, and the constructed basemap carries
the extent as its corners. -/
theorem plot_ppi_map_extent_spec_witness :
    ((eW.min_lon ∈ (ppiLonLat envW stW aDefaults).1 ∧
        ∀ z ∈ (ppiLonLat envW stW aDefaults).1, eW.min_lon ≤ z) ∧
      (eW.max_lon ∈ (ppiLonLat envW stW aDefaults).1 ∧
        ∀ z ∈ (ppiLonLat envW stW aDefaults).1, z ≤ eW.max_lon) ∧
      (eW.min_lat ∈ (ppiLonLat envW stW aDefaults).2 ∧
        ∀ z ∈ (ppiLonLat envW stW aDefaults).2, eW.min_lat ≤ z) ∧
      (eW.max_lat ∈ (ppiLonLat envW stW aDefaults).2 ∧
        ∀ z ∈ (ppiLonLat envW stW aDefaults).2, z ≤ eW.max_lat)) ∧
    ppiExtent envW stW aFixed
      = some { min_lon := (-92 : ℝ), max_lon := (-86 : ℝ)
             , min_lat := (40 : ℝ), max_lat := (44 : ℝ) } ∧
    (∃ e, ppiExtent envW stW aDefaults = some e ∧
      bmW.params.llcrnrlon = e.min_lon ∧ bmW.params.urcrnrlon = e.max_lon ∧
      bmW.params.llcrnrlat = e.min_lat ∧ bmW.params.urcrnrlat = e.max_lat) :=
  ⟨(plot_ppi_map_extent_spec envW stW aDefaults).1 rfl eW rfl,
   (plot_ppi_map_extent_spec envW stW aFixed).2.1 rfl,
   (plot_ppi_map_extent_spec envW stW aDefaults).2.2 bmW rfl⟩

/-- A successful `plot_ppi_map` call appends its mesh handle to `plots` and
its field to `plot_vars`, stores the basemap it constructed, and leaves the
radar location and projection untouched. -/
theorem plot_ppi_map_step (env : Env) (st : DisplayState) (a : PpiArgs)
    (st' : DisplayState) (pm : ℕ)
    (h : plot_ppi_map env st a = some (st', pm)) :
    st'.plots = st.plots ++ [pm] ∧
    st'.plot_vars = st.plot_vars ++ [a.field] ∧
    st'.basemap = ppiBasemap env st a ∧
    st'.proj = st.proj ∧ st'.loc = st.loc := by
  unfold plot_ppi_map at h
  cases hb : ppiBasemap env st a with
  | none => rw [hb] at h; exact absurd h (by simp)
  | some bm =>
      rw [hb] at h
      simp only [Option.some.injEq, Prod.mk.injEq] at h
      obtain ⟨hst, hpm⟩ := h
      subst hst
      subst hpm
      exact ⟨rfl, rfl, rfl, rfl, rfl⟩

/-- C4: calling `plot_ppi_map` twice appends exactly two entries to each of
`plots` and `plot_vars` — one mesh handle and one field name per call, at
matching indices, in call order — and after the second call the stored
basemap is the background constructed by the second call (computed from the
unchanged projection and radar location, independent of the first call's
background). -/
theorem plot_ppi_map_twice_appends (env : Env) (st : DisplayState)
    (a1 a2 : PpiArgs) (st1 st2 : DisplayState) (pm1 pm2 : ℕ)
    (h1 : plot_ppi_map env st a1 = some (st1, pm1))
    (h2 : plot_ppi_map env st1 a2 = some (st2, pm2)) :
    st2.plots = st.plots ++ [pm1, pm2] ∧
    st2.plot_vars = st.plot_vars ++ [a1.field, a2.field] ∧
    st2.basemap = ppiBasemap env st a2 := by
  obtain ⟨hp1, hv1, hb1, hproj1, hloc1⟩ := plot_ppi_map_step env st a1 st1 pm1 h1
  obtain ⟨hp2, hv2, hb2, hproj2, hloc2⟩ := plot_ppi_map_step env st1 a2 st2 pm2 h2
  refine ⟨by rw [hp2, hp1, List.append_assoc]; rfl,
    by rw [hv2, hv1, List.append_assoc]; rfl, ?_⟩
  rw [hb2]
  unfold ppiBasemap ppiExtent ppiLonLat
  rw [hproj1, hloc1]

/-- Witness for C4 at concrete inputs: two `plot_ppi_map` calls on the fresh
state append exactly the two mesh handles and the two field names, and leave
the second call's basemap stored. -/
theorem plot_ppi_map_twice_appends_witness :
    st2W.plots = stW.plots ++ [7, 7] ∧
    st2W.plot_vars = stW.plot_vars ++ ["reflectivity", "reflectivity"] ∧
    st2W.basemap = ppiBasemap envW stW aDefaults :=
  plot_ppi_map_twice_appends envW stW aDefaults aDefaults st1W st2W 7 7 rfl rfl
